import Mathlib

/-!
Verification of the OpenFlow 1.0 action codec
(`src/ofp/v0x01/common/action.py`).

The per-variant field layouts, constructors and the `ActionType`
enumeration are transcribed from `action.py`.  The generic record engine
(`base.GenericStruct` pack/unpack/size) and the primitive field codecs
(`basic_types.UBInt8/16/32`, `UBInt8Array`) are code of this repository
that is not under `src/`; those parts are modelled from the spec, as
marked on each definition.
-/

/-- Modelled from the spec: the typed failures of §7 (RangeError,
LengthMismatchError, TruncatedBufferError, UnknownTypeError,
IncompleteRecordError); the error types live in the foundation package,
which is not under src/. -/
inductive CodecError where
  | rangeError
  | lengthMismatchError
  | truncatedBufferError
  | unknownTypeError
  | incompleteRecordError
deriving DecidableEq, Repr

/-- Modelled from the spec: big-endian (network byte order) byte
serialisation of an unsigned integer into `w` bytes, most significant
first (§4.1); `basic_types` is not under src/. -/
def bytesBE : Nat → Nat → List Nat
  | 0, _ => []
  | w + 1, v => v / 256 ^ w :: bytesBE w (v % 256 ^ w)

/-- Modelled from the spec: big-endian reconstruction of the unsigned
integer encoded by a byte list (§4.1); `basic_types` is not under src/. -/
def readBE : List Nat → Nat
  | [] => 0
  | b :: bs => b * 256 ^ bs.length + readBE bs

/-- Modelled from the spec: encoding of a `w`-byte unsigned-integer field
(§4.1, §4.2): an unset field fails with IncompleteRecordError, a value
outside the `w`-byte unsigned range fails with RangeError; the
`basic_types.UBInt` encoders are not under src/. -/
def encUInt (w : Nat) : Option Nat → Except CodecError (List Nat)
  | none => Except.error CodecError.incompleteRecordError
  | some v =>
    if v < 256 ^ w then Except.ok (bytesBE w v)
    else Except.error CodecError.rangeError

/-- Modelled from the spec: encoding of a fixed-length byte-array field
(§4.1, §4.2): an unset field fails with IncompleteRecordError, a backing
value of the wrong length fails with LengthMismatchError;
`basic_types.UBInt8Array` is not under src/. -/
def encArr (n : Nat) : Option (List Nat) → Except CodecError (List Nat)
  | none => Except.error CodecError.incompleteRecordError
  | some bs =>
    if bs.length = n then Except.ok bs
    else Except.error CodecError.lengthMismatchError

/-- Modelled from the spec: decoding of a `w`-byte unsigned-integer field
(§4.1, §4.2): reads exactly `w` bytes from the front of the buffer and
returns the value and the rest; fewer bytes fail with
TruncatedBufferError; the `basic_types.UBInt` decoders are not under
src/. -/
def decUInt (w : Nat) (buf : List Nat) : Except CodecError (Nat × List Nat) :=
  if w ≤ buf.length then Except.ok (readBE (buf.take w), buf.drop w)
  else Except.error CodecError.truncatedBufferError

/-- Modelled from the spec: decoding of a fixed-length byte-array field
(§4.1, §4.2): reads exactly `n` bytes verbatim; fewer bytes fail with
TruncatedBufferError; `basic_types.UBInt8Array` is not under src/. -/
def decArr (n : Nat) (buf : List Nat) : Except CodecError (List Nat × List Nat) :=
  if n ≤ buf.length then Except.ok (buf.take n, buf.drop n)
  else Except.error CodecError.truncatedBufferError

/-- Modelled from the spec: `OFP_ETH_ALEN`, the 6-byte link-layer
address width (spec §4.4 table, `dlAddr[6]`); `base.py`, which defines the
constant used by `ActionDLAddr`, is not under src/. -/
def OFP_ETH_ALEN : Nat := 6

/-- `ActionOutput` of action.py: fields `ofpat_type` (UBInt16),
`length` (UBInt16), `port` (UBInt16), `max_length` (UBInt16), each
possibly unset (`None`). -/
structure ActionOutput where
  ofpat_type : Option Nat
  length : Option Nat
  port : Option Nat
  max_length : Option Nat
deriving DecidableEq, Repr

/-- `ActionOutput.__init__` of action.py: stores each argument unchanged;
every parameter defaults to `None` (here: applied at `none`). -/
def ActionOutput.init (ofpat_type length port max_length : Option Nat) :
    ActionOutput :=
  ⟨ofpat_type, length, port, max_length⟩

/-- Modelled from the spec: `encode` of the generic record engine (§4.2,
`base.GenericStruct.pack` is not under src/) applied to the
`ActionOutput` field list of action.py: concatenation of the four
16-bit field encodings in declaration order. -/
def ActionOutput.encode (r : ActionOutput) : Except CodecError (List Nat) := do
  let b0 ← encUInt 2 r.ofpat_type
  let b1 ← encUInt 2 r.length
  let b2 ← encUInt 2 r.port
  let b3 ← encUInt 2 r.max_length
  pure (b0 ++ b1 ++ b2 ++ b3)

/-- Modelled from the spec: `decode` of the generic record engine (§4.2,
`base.GenericStruct.unpack` is not under src/) applied to the
`ActionOutput` field list of action.py; returns the populated record and
the number of bytes consumed. -/
def ActionOutput.decode (buf : List Nat) :
    Except CodecError (ActionOutput × Nat) := do
  let (t, s1) ← decUInt 2 buf
  let (l, s2) ← decUInt 2 s1
  let (p, s3) ← decUInt 2 s2
  let (m, s4) ← decUInt 2 s3
  pure (⟨some t, some l, some p, some m⟩, buf.length - s4.length)

/-- `ActionHeader` of action.py: fields `ofpat_type` (UBInt16), `length`
(UBInt16), `pad` (UBInt8Array of length 4). -/
structure ActionHeader where
  ofpat_type : Option Nat
  length : Option Nat
  pad : Option (List Nat)
deriving DecidableEq, Repr

/-- `ActionHeader.__init__` of action.py: stores each argument unchanged;
every parameter defaults to `None`. -/
def ActionHeader.init (ofpat_type length : Option Nat)
    (pad : Option (List Nat)) : ActionHeader :=
  ⟨ofpat_type, length, pad⟩

/-- Modelled from the spec: generic-engine `encode` (§4.2;
`base.GenericStruct.pack` is not under src/) on the `ActionHeader` field
list of action.py. -/
def ActionHeader.encode (r : ActionHeader) : Except CodecError (List Nat) := do
  let b0 ← encUInt 2 r.ofpat_type
  let b1 ← encUInt 2 r.length
  let b2 ← encArr 4 r.pad
  pure (b0 ++ b1 ++ b2)

/-- Modelled from the spec: generic-engine `decode` (§4.2;
`base.GenericStruct.unpack` is not under src/) on the `ActionHeader`
field list of action.py. -/
def ActionHeader.decode (buf : List Nat) :
    Except CodecError (ActionHeader × Nat) := do
  let (t, s1) ← decUInt 2 buf
  let (l, s2) ← decUInt 2 s1
  let (pd, s3) ← decArr 4 s2
  pure (⟨some t, some l, some pd⟩, buf.length - s3.length)

/-- A validly constructed `ActionHeader`: every field set, integer fields
in 16-bit range, the pad array of its declared length 4. -/
def ActionHeader.Valid (r : ActionHeader) : Prop :=
  ∃ t l pd, r = ⟨some t, some l, some pd⟩ ∧
    t < 65536 ∧ l < 65536 ∧ List.length pd = 4

/-- Declared size of `ActionHeader` (sum of the declared field widths). -/
def ActionHeader.sizeBytes : Nat := 2 + 2 + 4

/-- `ActionEnqueue` of action.py: fields `ofpat_type` (UBInt16), `length`
(UBInt16), `port` (UBInt16), `pad` (UBInt8Array of length 6), `queue_id`
(UBInt32). -/
structure ActionEnqueue where
  ofpat_type : Option Nat
  length : Option Nat
  port : Option Nat
  pad : Option (List Nat)
  queue_id : Option Nat
deriving DecidableEq, Repr

/-- `ActionEnqueue.__init__` of action.py: stores each argument
unchanged; every parameter defaults to `None`. -/
def ActionEnqueue.init (ofpat_type length port : Option Nat)
    (pad : Option (List Nat)) (queue_id : Option Nat) : ActionEnqueue :=
  ⟨ofpat_type, length, port, pad, queue_id⟩

/-- Modelled from the spec: generic-engine `encode` (§4.2;
`base.GenericStruct.pack` is not under src/) on the `ActionEnqueue` field
list of action.py. -/
def ActionEnqueue.encode (r : ActionEnqueue) : Except CodecError (List Nat) := do
  let b0 ← encUInt 2 r.ofpat_type
  let b1 ← encUInt 2 r.length
  let b2 ← encUInt 2 r.port
  let b3 ← encArr 6 r.pad
  let b4 ← encUInt 4 r.queue_id
  pure (b0 ++ b1 ++ b2 ++ b3 ++ b4)

/-- Modelled from the spec: generic-engine `decode` (§4.2;
`base.GenericStruct.unpack` is not under src/) on the `ActionEnqueue`
field list of action.py. -/
def ActionEnqueue.decode (buf : List Nat) :
    Except CodecError (ActionEnqueue × Nat) := do
  let (t, s1) ← decUInt 2 buf
  let (l, s2) ← decUInt 2 s1
  let (p, s3) ← decUInt 2 s2
  let (pd, s4) ← decArr 6 s3
  let (q, s5) ← decUInt 4 s4
  pure (⟨some t, some l, some p, some pd, some q⟩, buf.length - s5.length)

/-- A validly constructed `ActionEnqueue`: every field set, integer
fields within their declared ranges, the pad array of its declared
length 6. -/
def ActionEnqueue.Valid (r : ActionEnqueue) : Prop :=
  ∃ t l p pd q, r = ⟨some t, some l, some p, some pd, some q⟩ ∧
    t < 65536 ∧ l < 65536 ∧ p < 65536 ∧ List.length pd = 6 ∧ q < 4294967296

/-- Declared size of `ActionEnqueue` (sum of the declared field widths). -/
def ActionEnqueue.sizeBytes : Nat := 2 + 2 + 2 + 6 + 4

/-- `ActionVlanVid` of action.py: fields `ofpat_type` (UBInt16), `length`
(UBInt16), `vlan_id` (UBInt16), `pad2` (UBInt8Array of length 2). -/
structure ActionVlanVid where
  ofpat_type : Option Nat
  length : Option Nat
  vlan_id : Option Nat
  pad2 : Option (List Nat)
deriving DecidableEq, Repr

/-- `ActionVlanVid.__init__` of action.py: stores each argument
unchanged; every parameter defaults to `None`. -/
def ActionVlanVid.init (ofpat_type length vlan_id : Option Nat)
    (pad2 : Option (List Nat)) : ActionVlanVid :=
  ⟨ofpat_type, length, vlan_id, pad2⟩

/-- Modelled from the spec: generic-engine `encode` (§4.2;
`base.GenericStruct.pack` is not under src/) on the `ActionVlanVid` field
list of action.py. -/
def ActionVlanVid.encode (r : ActionVlanVid) : Except CodecError (List Nat) := do
  let b0 ← encUInt 2 r.ofpat_type
  let b1 ← encUInt 2 r.length
  let b2 ← encUInt 2 r.vlan_id
  let b3 ← encArr 2 r.pad2
  pure (b0 ++ b1 ++ b2 ++ b3)

/-- Modelled from the spec: generic-engine `decode` (§4.2;
`base.GenericStruct.unpack` is not under src/) on the `ActionVlanVid`
field list of action.py. -/
def ActionVlanVid.decode (buf : List Nat) :
    Except CodecError (ActionVlanVid × Nat) := do
  let (t, s1) ← decUInt 2 buf
  let (l, s2) ← decUInt 2 s1
  let (v, s3) ← decUInt 2 s2
  let (pd, s4) ← decArr 2 s3
  pure (⟨some t, some l, some v, some pd⟩, buf.length - s4.length)

/-- A validly constructed `ActionVlanVid`: every field set, integer
fields in 16-bit range, the pad array of its declared length 2. -/
def ActionVlanVid.Valid (r : ActionVlanVid) : Prop :=
  ∃ t l v pd, r = ⟨some t, some l, some v, some pd⟩ ∧
    t < 65536 ∧ l < 65536 ∧ v < 65536 ∧ List.length pd = 2

/-- Declared size of `ActionVlanVid` (sum of the declared field widths). -/
def ActionVlanVid.sizeBytes : Nat := 2 + 2 + 2 + 2

/-- `ActionVlanPCP` of action.py: fields `ofpat_type` (UBInt16), `length`
(UBInt16), `vlan_pcp` (UBInt8), `pad` (UBInt8Array of length 3). -/
structure ActionVlanPCP where
  ofpat_type : Option Nat
  length : Option Nat
  vlan_pcp : Option Nat
  pad : Option (List Nat)
deriving DecidableEq, Repr

/-- `ActionVlanPCP.__init__` of action.py: stores each argument
unchanged; every parameter defaults to `None`. -/
def ActionVlanPCP.init (ofpat_type length vlan_pcp : Option Nat)
    (pad : Option (List Nat)) : ActionVlanPCP :=
  ⟨ofpat_type, length, vlan_pcp, pad⟩

/-- Modelled from the spec: generic-engine `encode` (§4.2;
`base.GenericStruct.pack` is not under src/) on the `ActionVlanPCP` field
list of action.py. -/
def ActionVlanPCP.encode (r : ActionVlanPCP) : Except CodecError (List Nat) := do
  let b0 ← encUInt 2 r.ofpat_type
  let b1 ← encUInt 2 r.length
  let b2 ← encUInt 1 r.vlan_pcp
  let b3 ← encArr 3 r.pad
  pure (b0 ++ b1 ++ b2 ++ b3)

/-- Modelled from the spec: generic-engine `decode` (§4.2;
`base.GenericStruct.unpack` is not under src/) on the `ActionVlanPCP`
field list of action.py. -/
def ActionVlanPCP.decode (buf : List Nat) :
    Except CodecError (ActionVlanPCP × Nat) := do
  let (t, s1) ← decUInt 2 buf
  let (l, s2) ← decUInt 2 s1
  let (v, s3) ← decUInt 1 s2
  let (pd, s4) ← decArr 3 s3
  pure (⟨some t, some l, some v, some pd⟩, buf.length - s4.length)

/-- A validly constructed `ActionVlanPCP`: every field set, integer
fields within their declared ranges, the pad array of its declared
length 3. -/
def ActionVlanPCP.Valid (r : ActionVlanPCP) : Prop :=
  ∃ t l v pd, r = ⟨some t, some l, some v, some pd⟩ ∧
    t < 65536 ∧ l < 65536 ∧ v < 256 ∧ List.length pd = 3

/-- Declared size of `ActionVlanPCP` (sum of the declared field widths). -/
def ActionVlanPCP.sizeBytes : Nat := 2 + 2 + 1 + 3

/-- `ActionDLAddr` of action.py: fields `ofpat_type` (UBInt16), `length`
(UBInt16), `dl_addr` (UBInt8Array of length OFP_ETH_ALEN), `pad`
(UBInt8Array of length 6). -/
structure ActionDLAddr where
  ofpat_type : Option Nat
  length : Option Nat
  dl_addr : Option (List Nat)
  pad : Option (List Nat)
deriving DecidableEq, Repr

/-- `ActionDLAddr.__init__` of action.py: stores each argument unchanged;
every parameter defaults to `None`. -/
def ActionDLAddr.init (ofpat_type length : Option Nat)
    (dl_addr pad : Option (List Nat)) : ActionDLAddr :=
  ⟨ofpat_type, length, dl_addr, pad⟩

/-- Modelled from the spec: generic-engine `encode` (§4.2;
`base.GenericStruct.pack` is not under src/) on the `ActionDLAddr` field
list of action.py. -/
def ActionDLAddr.encode (r : ActionDLAddr) : Except CodecError (List Nat) := do
  let b0 ← encUInt 2 r.ofpat_type
  let b1 ← encUInt 2 r.length
  let b2 ← encArr OFP_ETH_ALEN r.dl_addr
  let b3 ← encArr 6 r.pad
  pure (b0 ++ b1 ++ b2 ++ b3)

/-- Modelled from the spec: generic-engine `decode` (§4.2;
`base.GenericStruct.unpack` is not under src/) on the `ActionDLAddr`
field list of action.py. -/
def ActionDLAddr.decode (buf : List Nat) :
    Except CodecError (ActionDLAddr × Nat) := do
  let (t, s1) ← decUInt 2 buf
  let (l, s2) ← decUInt 2 s1
  let (a, s3) ← decArr OFP_ETH_ALEN s2
  let (pd, s4) ← decArr 6 s3
  pure (⟨some t, some l, some a, some pd⟩, buf.length - s4.length)

/-- A validly constructed `ActionDLAddr`: every field set, integer fields
in 16-bit range, both arrays of their declared lengths. -/
def ActionDLAddr.Valid (r : ActionDLAddr) : Prop :=
  ∃ t l a pd, r = ⟨some t, some l, some a, some pd⟩ ∧
    t < 65536 ∧ l < 65536 ∧ List.length a = 6 ∧ List.length pd = 6

/-- Declared size of `ActionDLAddr` (sum of the declared field widths). -/
def ActionDLAddr.sizeBytes : Nat := 2 + 2 + OFP_ETH_ALEN + 6

/-- `ActionNWAddr` of action.py: fields `ofpat_type` (UBInt16), `length`
(UBInt16), `nw_addr` (UBInt32). -/
structure ActionNWAddr where
  ofpat_type : Option Nat
  length : Option Nat
  nw_addr : Option Nat
deriving DecidableEq, Repr

/-- `ActionNWAddr.__init__` of action.py: stores each argument unchanged;
every parameter defaults to `None`. -/
def ActionNWAddr.init (ofpat_type length nw_addr : Option Nat) :
    ActionNWAddr :=
  ⟨ofpat_type, length, nw_addr⟩

/-- Modelled from the spec: generic-engine `encode` (§4.2;
`base.GenericStruct.pack` is not under src/) on the `ActionNWAddr` field
list of action.py. -/
def ActionNWAddr.encode (r : ActionNWAddr) : Except CodecError (List Nat) := do
  let b0 ← encUInt 2 r.ofpat_type
  let b1 ← encUInt 2 r.length
  let b2 ← encUInt 4 r.nw_addr
  pure (b0 ++ b1 ++ b2)

/-- Modelled from the spec: generic-engine `decode` (§4.2;
`base.GenericStruct.unpack` is not under src/) on the `ActionNWAddr`
field list of action.py. -/
def ActionNWAddr.decode (buf : List Nat) :
    Except CodecError (ActionNWAddr × Nat) := do
  let (t, s1) ← decUInt 2 buf
  let (l, s2) ← decUInt 2 s1
  let (a, s3) ← decUInt 4 s2
  pure (⟨some t, some l, some a⟩, buf.length - s3.length)

/-- A validly constructed `ActionNWAddr`: every field set and within its
declared range. -/
def ActionNWAddr.Valid (r : ActionNWAddr) : Prop :=
  ∃ t l a, r = ⟨some t, some l, some a⟩ ∧
    t < 65536 ∧ l < 65536 ∧ a < 4294967296

/-- Declared size of `ActionNWAddr` (sum of the declared field widths). -/
def ActionNWAddr.sizeBytes : Nat := 2 + 2 + 4

/-- `ActionNWTos` of action.py: fields `ofpat_type` (UBInt16), `length`
(UBInt16), `nw_tos` (UBInt8), `pad` (UBInt8Array of length 3). -/
structure ActionNWTos where
  ofpat_type : Option Nat
  length : Option Nat
  nw_tos : Option Nat
  pad : Option (List Nat)
deriving DecidableEq, Repr

/-- `ActionNWTos.__init__` of action.py: stores each argument unchanged;
every parameter defaults to `None`. -/
def ActionNWTos.init (ofpat_type length nw_tos : Option Nat)
    (pad : Option (List Nat)) : ActionNWTos :=
  ⟨ofpat_type, length, nw_tos, pad⟩

/-- Modelled from the spec: generic-engine `encode` (§4.2;
`base.GenericStruct.pack` is not under src/) on the `ActionNWTos` field
list of action.py. -/
def ActionNWTos.encode (r : ActionNWTos) : Except CodecError (List Nat) := do
  let b0 ← encUInt 2 r.ofpat_type
  let b1 ← encUInt 2 r.length
  let b2 ← encUInt 1 r.nw_tos
  let b3 ← encArr 3 r.pad
  pure (b0 ++ b1 ++ b2 ++ b3)

/-- Modelled from the spec: generic-engine `decode` (§4.2;
`base.GenericStruct.unpack` is not under src/) on the `ActionNWTos`
field list of action.py. -/
def ActionNWTos.decode (buf : List Nat) :
    Except CodecError (ActionNWTos × Nat) := do
  let (t, s1) ← decUInt 2 buf
  let (l, s2) ← decUInt 2 s1
  let (v, s3) ← decUInt 1 s2
  let (pd, s4) ← decArr 3 s3
  pure (⟨some t, some l, some v, some pd⟩, buf.length - s4.length)

/-- A validly constructed `ActionNWTos`: every field set, integer fields
within their declared ranges, the pad array of its declared length 3. -/
def ActionNWTos.Valid (r : ActionNWTos) : Prop :=
  ∃ t l v pd, r = ⟨some t, some l, some v, some pd⟩ ∧
    t < 65536 ∧ l < 65536 ∧ v < 256 ∧ List.length pd = 3

/-- Declared size of `ActionNWTos` (sum of the declared field widths). -/
def ActionNWTos.sizeBytes : Nat := 2 + 2 + 1 + 3

/-- `ActionTPPort` of action.py: fields `ofpat_type` (UBInt16), `length`
(UBInt16), `tp_port` (UBInt16), `pad` (UBInt8Array of length 2). -/
structure ActionTPPort where
  ofpat_type : Option Nat
  length : Option Nat
  tp_port : Option Nat
  pad : Option (List Nat)
deriving DecidableEq, Repr

/-- `ActionTPPort.__init__` of action.py: stores each argument unchanged;
every parameter defaults to `None`. -/
def ActionTPPort.init (ofpat_type length tp_port : Option Nat)
    (pad : Option (List Nat)) : ActionTPPort :=
  ⟨ofpat_type, length, tp_port, pad⟩

/-- Modelled from the spec: generic-engine `encode` (§4.2;
`base.GenericStruct.pack` is not under src/) on the `ActionTPPort` field
list of action.py. -/
def ActionTPPort.encode (r : ActionTPPort) : Except CodecError (List Nat) := do
  let b0 ← encUInt 2 r.ofpat_type
  let b1 ← encUInt 2 r.length
  let b2 ← encUInt 2 r.tp_port
  let b3 ← encArr 2 r.pad
  pure (b0 ++ b1 ++ b2 ++ b3)

/-- Modelled from the spec: generic-engine `decode` (§4.2;
`base.GenericStruct.unpack` is not under src/) on the `ActionTPPort`
field list of action.py. -/
def ActionTPPort.decode (buf : List Nat) :
    Except CodecError (ActionTPPort × Nat) := do
  let (t, s1) ← decUInt 2 buf
  let (l, s2) ← decUInt 2 s1
  let (v, s3) ← decUInt 2 s2
  let (pd, s4) ← decArr 2 s3
  pure (⟨some t, some l, some v, some pd⟩, buf.length - s4.length)

/-- A validly constructed `ActionTPPort`: every field set, integer fields
in 16-bit range, the pad array of its declared length 2. -/
def ActionTPPort.Valid (r : ActionTPPort) : Prop :=
  ∃ t l v pd, r = ⟨some t, some l, some v, some pd⟩ ∧
    t < 65536 ∧ l < 65536 ∧ v < 65536 ∧ List.length pd = 2

/-- Declared size of `ActionTPPort` (sum of the declared field widths). -/
def ActionTPPort.sizeBytes : Nat := 2 + 2 + 2 + 2

/-- `ActionVendorHeader` of action.py: fields `ofpat_type` (UBInt16),
`length` (UBInt16), `vendor` (UBInt32). -/
structure ActionVendorHeader where
  ofpat_type : Option Nat
  length : Option Nat
  vendor : Option Nat
deriving DecidableEq, Repr

/-- `ActionVendorHeader.__init__` of action.py: stores each argument
unchanged; every parameter defaults to `None`. -/
def ActionVendorHeader.init (ofpat_type length vendor : Option Nat) :
    ActionVendorHeader :=
  ⟨ofpat_type, length, vendor⟩

/-- Modelled from the spec: generic-engine `encode` (§4.2;
`base.GenericStruct.pack` is not under src/) on the `ActionVendorHeader`
field list of action.py. -/
def ActionVendorHeader.encode (r : ActionVendorHeader) :
    Except CodecError (List Nat) := do
  let b0 ← encUInt 2 r.ofpat_type
  let b1 ← encUInt 2 r.length
  let b2 ← encUInt 4 r.vendor
  pure (b0 ++ b1 ++ b2)

/-- Modelled from the spec: generic-engine `decode` (§4.2;
`base.GenericStruct.unpack` is not under src/) on the
`ActionVendorHeader` field list of action.py. -/
def ActionVendorHeader.decode (buf : List Nat) :
    Except CodecError (ActionVendorHeader × Nat) := do
  let (t, s1) ← decUInt 2 buf
  let (l, s2) ← decUInt 2 s1
  let (v, s3) ← decUInt 4 s2
  pure (⟨some t, some l, some v⟩, buf.length - s3.length)

/-- A validly constructed `ActionVendorHeader`: every field set and
within its declared range. -/
def ActionVendorHeader.Valid (r : ActionVendorHeader) : Prop :=
  ∃ t l v, r = ⟨some t, some l, some v⟩ ∧
    t < 65536 ∧ l < 65536 ∧ v < 4294967296

/-- Declared size of the fixed `ActionVendorHeader` prefix (sum of the
declared field widths). -/
def ActionVendorHeader.sizeBytes : Nat := 2 + 2 + 4

/-- A validly constructed `ActionOutput`: every field set and within its
16-bit range. -/
def ActionOutput.Valid (r : ActionOutput) : Prop :=
  ∃ t l p m, r = ⟨some t, some l, some p, some m⟩ ∧
    t < 65536 ∧ l < 65536 ∧ p < 65536 ∧ m < 65536

/-- Declared size of `ActionOutput` (sum of the declared field widths). -/
def ActionOutput.sizeBytes : Nat := 2 + 2 + 2 + 2

/-- `ActionType` of action.py: the closed enumeration of action
discriminants. -/
inductive ActionType where
  | OFPAT_OUTPUT
  | OFPAT_SET_VLAN_VID
  | OFPAT_SET_VLAN_PCP
  | OFPAT_STRIP_VLAN
  | OFPAT_SET_DL_SRC
  | OFPAT_SET_DL_DST
  | OFPAT_SET_NW_SRC
  | OFPAT_SET_NW_DST
  | OFPAT_SET_NW_TOS
  | OFPAT_SET_TP_SRC
  | OFPAT_SET_TP_DST
  | OFPAT_ENQUEUE
  | OFPAT_VENDOR
deriving DecidableEq, Repr

/-- The numeric value of each `ActionType` member, as assigned in
action.py. -/
def ActionType.value : ActionType → Nat
  | .OFPAT_OUTPUT => 0
  | .OFPAT_SET_VLAN_VID => 1
  | .OFPAT_SET_VLAN_PCP => 2
  | .OFPAT_STRIP_VLAN => 3
  | .OFPAT_SET_DL_SRC => 4
  | .OFPAT_SET_DL_DST => 5
  | .OFPAT_SET_NW_SRC => 6
  | .OFPAT_SET_NW_DST => 7
  | .OFPAT_SET_NW_TOS => 8
  | .OFPAT_SET_TP_SRC => 9
  | .OFPAT_SET_TP_DST => 10
  | .OFPAT_ENQUEUE => 11
  | .OFPAT_VENDOR => 0xffff

/-- The list of all `ActionType` members, in declaration order. -/
def allActionTypes : List ActionType :=
  [.OFPAT_OUTPUT, .OFPAT_SET_VLAN_VID, .OFPAT_SET_VLAN_PCP,
   .OFPAT_STRIP_VLAN, .OFPAT_SET_DL_SRC, .OFPAT_SET_DL_DST,
   .OFPAT_SET_NW_SRC, .OFPAT_SET_NW_DST, .OFPAT_SET_NW_TOS,
   .OFPAT_SET_TP_SRC, .OFPAT_SET_TP_DST, .OFPAT_ENQUEUE, .OFPAT_VENDOR]

/-- The numeric discriminant values of the `ActionType` enumeration:
the domain of the dispatch table. -/
def actionTypeValues : List Nat := allActionTypes.map ActionType.value

/-- An action record of some concrete variant: the result type of
dispatch decoding. -/
inductive ActionRecord where
  | header (r : ActionHeader)
  | output (r : ActionOutput)
  | enqueue (r : ActionEnqueue)
  | vlanVid (r : ActionVlanVid)
  | vlanPCP (r : ActionVlanPCP)
  | dlAddr (r : ActionDLAddr)
  | nwAddr (r : ActionNWAddr)
  | nwTos (r : ActionNWTos)
  | tpPort (r : ActionTPPort)
  | vendorHeader (r : ActionVendorHeader)
deriving DecidableEq, Repr

/-- Modelled from the spec: the OFPAT_OUTPUT entry of the dispatch
algorithm (§4.4; the dispatch table is not under src/): full variant
decode, then verification that `declaredLength` equals the variant's
true fixed size 8, a mismatch failing with LengthMismatchError. -/
def decodeAsOutput (buf : List Nat) : Except CodecError (ActionRecord × Nat) :=
  match ActionOutput.decode buf with
  | Except.error e => Except.error e
  | Except.ok (r, n) =>
    if r.length = some 8 then Except.ok (ActionRecord.output r, n)
    else Except.error CodecError.lengthMismatchError

/-- Modelled from the spec: the OFPAT_SET_VLAN_VID entry of the dispatch
algorithm (§4.4): variant decode, then declared-length check against the
fixed size 8. -/
def decodeAsVlanVid (buf : List Nat) : Except CodecError (ActionRecord × Nat) :=
  match ActionVlanVid.decode buf with
  | Except.error e => Except.error e
  | Except.ok (r, n) =>
    if r.length = some 8 then Except.ok (ActionRecord.vlanVid r, n)
    else Except.error CodecError.lengthMismatchError

/-- Modelled from the spec: the OFPAT_SET_VLAN_PCP entry of the dispatch
algorithm (§4.4): variant decode, then declared-length check against the
fixed size 8. -/
def decodeAsVlanPCP (buf : List Nat) : Except CodecError (ActionRecord × Nat) :=
  match ActionVlanPCP.decode buf with
  | Except.error e => Except.error e
  | Except.ok (r, n) =>
    if r.length = some 8 then Except.ok (ActionRecord.vlanPCP r, n)
    else Except.error CodecError.lengthMismatchError

/-- Modelled from the spec: the OFPAT_STRIP_VLAN entry of the dispatch
algorithm (§4.4): strip-vlan has no body beyond the common 8-byte header
(§4.2 of action.py defines no dedicated class), so the common
`ActionHeader` layout decodes it; declared-length check against the
fixed size 8. -/
def decodeAsStripVlan (buf : List Nat) : Except CodecError (ActionRecord × Nat) :=
  match ActionHeader.decode buf with
  | Except.error e => Except.error e
  | Except.ok (r, n) =>
    if r.length = some 8 then Except.ok (ActionRecord.header r, n)
    else Except.error CodecError.lengthMismatchError

/-- Modelled from the spec: the OFPAT_SET_DL_SRC/DST entries of the
dispatch algorithm (§4.4): variant decode, then declared-length check
against the fixed size 16. -/
def decodeAsDLAddr (buf : List Nat) : Except CodecError (ActionRecord × Nat) :=
  match ActionDLAddr.decode buf with
  | Except.error e => Except.error e
  | Except.ok (r, n) =>
    if r.length = some 16 then Except.ok (ActionRecord.dlAddr r, n)
    else Except.error CodecError.lengthMismatchError

/-- Modelled from the spec: the OFPAT_SET_NW_SRC/DST entries of the
dispatch algorithm (§4.4): variant decode, then declared-length check
against the fixed size 8. -/
def decodeAsNWAddr (buf : List Nat) : Except CodecError (ActionRecord × Nat) :=
  match ActionNWAddr.decode buf with
  | Except.error e => Except.error e
  | Except.ok (r, n) =>
    if r.length = some 8 then Except.ok (ActionRecord.nwAddr r, n)
    else Except.error CodecError.lengthMismatchError

/-- Modelled from the spec: the OFPAT_SET_NW_TOS entry of the dispatch
algorithm (§4.4): variant decode, then declared-length check against the
fixed size 8. -/
def decodeAsNWTos (buf : List Nat) : Except CodecError (ActionRecord × Nat) :=
  match ActionNWTos.decode buf with
  | Except.error e => Except.error e
  | Except.ok (r, n) =>
    if r.length = some 8 then Except.ok (ActionRecord.nwTos r, n)
    else Except.error CodecError.lengthMismatchError

/-- Modelled from the spec: the OFPAT_SET_TP_SRC/DST entries of the
dispatch algorithm (§4.4): variant decode, then declared-length check
against the fixed size 8. -/
def decodeAsTPPort (buf : List Nat) : Except CodecError (ActionRecord × Nat) :=
  match ActionTPPort.decode buf with
  | Except.error e => Except.error e
  | Except.ok (r, n) =>
    if r.length = some 8 then Except.ok (ActionRecord.tpPort r, n)
    else Except.error CodecError.lengthMismatchError

/-- Modelled from the spec: the OFPAT_ENQUEUE entry of the dispatch
algorithm (§4.4): variant decode, then declared-length check against the
fixed size 16. -/
def decodeAsEnqueue (buf : List Nat) : Except CodecError (ActionRecord × Nat) :=
  match ActionEnqueue.decode buf with
  | Except.error e => Except.error e
  | Except.ok (r, n) =>
    if r.length = some 16 then Except.ok (ActionRecord.enqueue r, n)
    else Except.error CodecError.lengthMismatchError

/-- Modelled from the spec: the OFPAT_VENDOR entry of the dispatch
algorithm (§4.4): decode the fixed 8-byte prefix, then accept any
`declaredLength` that exceeds the prefix by a multiple-of-8 trailing
payload; the payload is only length-validated (TruncatedBufferError if
the buffer has fewer than `declaredLength` bytes), not further decoded;
the bytes consumed equal `declaredLength`. -/
def decodeAsVendor (buf : List Nat) : Except CodecError (ActionRecord × Nat) :=
  match ActionVendorHeader.decode buf with
  | Except.error e => Except.error e
  | Except.ok (r, _) =>
    match r.length with
    | none => Except.error CodecError.lengthMismatchError
    | some l =>
      if 8 ≤ l ∧ l % 8 = 0 then
        if l ≤ buf.length then Except.ok (ActionRecord.vendorHeader r, l)
        else Except.error CodecError.truncatedBufferError
      else Except.error CodecError.lengthMismatchError

/-- Modelled from the spec: the dispatch algorithm of §4.4 (not under
src/): read the 16-bit discriminant, look it up in the static table over
the `ActionType` values of action.py, fail with UnknownTypeError when
absent, otherwise run the matching variant decoder from the original
offset. -/
def decodeAction (buf : List Nat) : Except CodecError (ActionRecord × Nat) :=
  match decUInt 2 buf with
  | Except.error e => Except.error e
  | Except.ok (t, _) =>
    if t = 0 then decodeAsOutput buf
    else if t = 1 then decodeAsVlanVid buf
    else if t = 2 then decodeAsVlanPCP buf
    else if t = 3 then decodeAsStripVlan buf
    else if t = 4 then decodeAsDLAddr buf
    else if t = 5 then decodeAsDLAddr buf
    else if t = 6 then decodeAsNWAddr buf
    else if t = 7 then decodeAsNWAddr buf
    else if t = 8 then decodeAsNWTos buf
    else if t = 9 then decodeAsTPPort buf
    else if t = 10 then decodeAsTPPort buf
    else if t = 11 then decodeAsEnqueue buf
    else if t = 65535 then decodeAsVendor buf
    else Except.error CodecError.unknownTypeError

/-- The declared-length discipline of §4.4 on a dispatch-decoded action:
the `length` field equals the variant's true fixed size, except
VendorHeader, whose declared length exceeds the fixed 8-byte prefix by a
multiple-of-8 trailing payload. -/
def declaredLengthOK : ActionRecord → Prop
  | .header r => r.length = some 8
  | .output r => r.length = some 8
  | .enqueue r => r.length = some 16
  | .vlanVid r => r.length = some 8
  | .vlanPCP r => r.length = some 8
  | .dlAddr r => r.length = some 16
  | .nwAddr r => r.length = some 8
  | .nwTos r => r.length = some 8
  | .tpPort r => r.length = some 8
  | .vendorHeader r => ∃ l, r.length = some l ∧ 8 ≤ l ∧ l % 8 = 0

/-- Modelled from the spec: a valid vendor trailing-payload length — the
vendor record's declared length exceeds the fixed 8-byte prefix by a
multiple of 8 (§4.4, §9). -/
def validVendorPayloadLen (n : Nat) : Prop := n % 8 = 0

/-- Modelled from the spec: the wire size of a vendor action with a
trailing payload of `n` bytes — the fixed 8-byte prefix plus the
payload (§4.4). -/
def vendorWireSize (n : Nat) : Nat := ActionVendorHeader.sizeBytes + n

theorem bytesBE_length (w v : Nat) : (bytesBE w v).length = w := by
  induction w generalizing v with
  | zero => simp [bytesBE]
  | succ w ih => simp [bytesBE, ih]

theorem readBE_bytesBE (w v : Nat) (h : v < 256 ^ w) :
    readBE (bytesBE w v) = v := by
  induction w generalizing v with
  | zero =>
    simp [bytesBE, readBE]
    omega
  | succ w ih =>
    have hpos : 0 < 256 ^ w := Nat.pos_pow_of_pos w (by norm_num)
    simp [bytesBE, readBE, bytesBE_length, ih _ (Nat.mod_lt _ hpos)]
    rw [Nat.mul_comm]
    exact Nat.div_add_mod v (256 ^ w)

theorem decUInt_append (w v : Nat) (rest : List Nat) (h : v < 256 ^ w) :
    decUInt w (bytesBE w v ++ rest) = Except.ok (v, rest) := by
  have hlen : (bytesBE w v).length = w := bytesBE_length w v
  simp [decUInt, hlen, List.take_left' hlen, List.drop_left' hlen,
    readBE_bytesBE w v h]

theorem decArr_append (n : Nat) (bs rest : List Nat) (h : bs.length = n) :
    decArr n (bs ++ rest) = Except.ok (bs, rest) := by
  simp [decArr, h, List.take_left' h, List.drop_left' h]

theorem encUInt_some (w v : Nat) (h : v < 256 ^ w) :
    encUInt w (some v) = Except.ok (bytesBE w v) := by
  simp [encUInt, h]

theorem encArr_some (n : Nat) (bs : List Nat) (h : bs.length = n) :
    encArr n (some bs) = Except.ok bs := by
  simp [encArr, h]

theorem decUInt_exact (w v : Nat) (h : v < 256 ^ w) :
    decUInt w (bytesBE w v) = Except.ok (v, []) := by
  have h2 := decUInt_append w v [] h
  simpa using h2

theorem decArr_exact (n : Nat) (bs : List Nat) (h : bs.length = n) :
    decArr n bs = Except.ok (bs, []) := by
  have h2 := decArr_append n bs [] h
  simpa using h2

theorem ok_bind {α β : Type} (a : α) (f : α → Except CodecError β) :
    (Except.ok a : Except CodecError α) >>= f = f a := rfl

theorem error_bind {α β : Type} (e : CodecError) (f : α → Except CodecError β) :
    (Except.error e : Except CodecError α) >>= f = Except.error e := rfl

theorem ok_bind2 {α β : Type} (a : α) (f : α → Except CodecError β) :
    (Except.ok a : Except CodecError α).bind f = f a := rfl

theorem error_bind2 {α β : Type} (e : CodecError) (f : α → Except CodecError β) :
    (Except.error e : Except CodecError α).bind f = Except.error e := rfl

theorem pure_eq_ok {α : Type} (a : α) :
    (pure a : Except CodecError α) = Except.ok a := rfl

theorem encUInt1_some (v : Nat) (h : v < 256) :
    encUInt 1 (some v) = Except.ok (bytesBE 1 v) := by
  apply encUInt_some
  norm_num
  omega

theorem encUInt2_some (v : Nat) (h : v < 65536) :
    encUInt 2 (some v) = Except.ok (bytesBE 2 v) := by
  apply encUInt_some
  norm_num
  omega

theorem encUInt4_some (v : Nat) (h : v < 4294967296) :
    encUInt 4 (some v) = Except.ok (bytesBE 4 v) := by
  apply encUInt_some
  norm_num
  omega

theorem decUInt1_append (v : Nat) (rest : List Nat) (h : v < 256) :
    decUInt 1 (bytesBE 1 v ++ rest) = Except.ok (v, rest) := by
  apply decUInt_append
  norm_num
  omega

theorem decUInt2_append (v : Nat) (rest : List Nat) (h : v < 65536) :
    decUInt 2 (bytesBE 2 v ++ rest) = Except.ok (v, rest) := by
  apply decUInt_append
  norm_num
  omega

theorem decUInt4_append (v : Nat) (rest : List Nat) (h : v < 4294967296) :
    decUInt 4 (bytesBE 4 v ++ rest) = Except.ok (v, rest) := by
  apply decUInt_append
  norm_num
  omega

theorem decUInt1_exact (v : Nat) (h : v < 256) :
    decUInt 1 (bytesBE 1 v) = Except.ok (v, []) := by
  apply decUInt_exact
  norm_num
  omega

theorem decUInt2_exact (v : Nat) (h : v < 65536) :
    decUInt 2 (bytesBE 2 v) = Except.ok (v, []) := by
  apply decUInt_exact
  norm_num
  omega

theorem decUInt4_exact (v : Nat) (h : v < 4294967296) :
    decUInt 4 (bytesBE 4 v) = Except.ok (v, []) := by
  apply decUInt_exact
  norm_num
  omega

theorem outputEncodeEq (t l p m : Nat) (ht : t < 65536) (hl : l < 65536)
    (hp : p < 65536) (hm : m < 65536) :
    ActionOutput.encode ⟨some t, some l, some p, some m⟩ =
      Except.ok (bytesBE 2 t ++ (bytesBE 2 l ++ (bytesBE 2 p ++ bytesBE 2 m))) := by
  simp [ActionOutput.encode, encUInt2_some _ ht, encUInt2_some _ hl,
    encUInt2_some _ hp, encUInt2_some _ hm, ok_bind, pure_eq_ok,
    List.append_assoc]

theorem headerEncodeEq (t l : Nat) (pd : List Nat) (ht : t < 65536)
    (hl : l < 65536) (hpd : pd.length = 4) :
    ActionHeader.encode ⟨some t, some l, some pd⟩ =
      Except.ok (bytesBE 2 t ++ (bytesBE 2 l ++ pd)) := by
  simp [ActionHeader.encode, encUInt2_some _ ht, encUInt2_some _ hl,
    encArr_some _ _ hpd, ok_bind, pure_eq_ok, List.append_assoc]

theorem enqueueEncodeEq (t l p : Nat) (pd : List Nat) (q : Nat)
    (ht : t < 65536) (hl : l < 65536) (hp : p < 65536)
    (hpd : pd.length = 6) (hq : q < 4294967296) :
    ActionEnqueue.encode ⟨some t, some l, some p, some pd, some q⟩ =
      Except.ok (bytesBE 2 t ++ (bytesBE 2 l ++ (bytesBE 2 p ++
        (pd ++ bytesBE 4 q)))) := by
  simp [ActionEnqueue.encode, encUInt2_some _ ht, encUInt2_some _ hl,
    encUInt2_some _ hp, encArr_some _ _ hpd, encUInt4_some _ hq,
    ok_bind, pure_eq_ok, List.append_assoc]

theorem vlanVidEncodeEq (t l v : Nat) (pd : List Nat) (ht : t < 65536)
    (hl : l < 65536) (hv : v < 65536) (hpd : pd.length = 2) :
    ActionVlanVid.encode ⟨some t, some l, some v, some pd⟩ =
      Except.ok (bytesBE 2 t ++ (bytesBE 2 l ++ (bytesBE 2 v ++ pd))) := by
  simp [ActionVlanVid.encode, encUInt2_some _ ht, encUInt2_some _ hl,
    encUInt2_some _ hv, encArr_some _ _ hpd, ok_bind, pure_eq_ok,
    List.append_assoc]

theorem vlanPCPEncodeEq (t l v : Nat) (pd : List Nat) (ht : t < 65536)
    (hl : l < 65536) (hv : v < 256) (hpd : pd.length = 3) :
    ActionVlanPCP.encode ⟨some t, some l, some v, some pd⟩ =
      Except.ok (bytesBE 2 t ++ (bytesBE 2 l ++ (bytesBE 1 v ++ pd))) := by
  simp [ActionVlanPCP.encode, encUInt2_some _ ht, encUInt2_some _ hl,
    encUInt1_some _ hv, encArr_some _ _ hpd, ok_bind, pure_eq_ok,
    List.append_assoc]

theorem dlAddrEncodeEq (t l : Nat) (a pd : List Nat) (ht : t < 65536)
    (hl : l < 65536) (ha : a.length = 6) (hpd : pd.length = 6) :
    ActionDLAddr.encode ⟨some t, some l, some a, some pd⟩ =
      Except.ok (bytesBE 2 t ++ (bytesBE 2 l ++ (a ++ pd))) := by
  have ha6 : a.length = OFP_ETH_ALEN := by simpa [OFP_ETH_ALEN] using ha
  simp [ActionDLAddr.encode, encUInt2_some _ ht, encUInt2_some _ hl,
    encArr_some _ _ ha6, encArr_some _ _ hpd, ok_bind, pure_eq_ok,
    List.append_assoc]

theorem nwAddrEncodeEq (t l a : Nat) (ht : t < 65536) (hl : l < 65536)
    (ha : a < 4294967296) :
    ActionNWAddr.encode ⟨some t, some l, some a⟩ =
      Except.ok (bytesBE 2 t ++ (bytesBE 2 l ++ bytesBE 4 a)) := by
  simp [ActionNWAddr.encode, encUInt2_some _ ht, encUInt2_some _ hl,
    encUInt4_some _ ha, ok_bind, pure_eq_ok, List.append_assoc]

theorem nwTosEncodeEq (t l v : Nat) (pd : List Nat) (ht : t < 65536)
    (hl : l < 65536) (hv : v < 256) (hpd : pd.length = 3) :
    ActionNWTos.encode ⟨some t, some l, some v, some pd⟩ =
      Except.ok (bytesBE 2 t ++ (bytesBE 2 l ++ (bytesBE 1 v ++ pd))) := by
  simp [ActionNWTos.encode, encUInt2_some _ ht, encUInt2_some _ hl,
    encUInt1_some _ hv, encArr_some _ _ hpd, ok_bind, pure_eq_ok,
    List.append_assoc]

theorem tpPortEncodeEq (t l v : Nat) (pd : List Nat) (ht : t < 65536)
    (hl : l < 65536) (hv : v < 65536) (hpd : pd.length = 2) :
    ActionTPPort.encode ⟨some t, some l, some v, some pd⟩ =
      Except.ok (bytesBE 2 t ++ (bytesBE 2 l ++ (bytesBE 2 v ++ pd))) := by
  simp [ActionTPPort.encode, encUInt2_some _ ht, encUInt2_some _ hl,
    encUInt2_some _ hv, encArr_some _ _ hpd, ok_bind, pure_eq_ok,
    List.append_assoc]

theorem vendorEncodeEq (t l v : Nat) (ht : t < 65536) (hl : l < 65536)
    (hv : v < 4294967296) :
    ActionVendorHeader.encode ⟨some t, some l, some v⟩ =
      Except.ok (bytesBE 2 t ++ (bytesBE 2 l ++ bytesBE 4 v)) := by
  simp [ActionVendorHeader.encode, encUInt2_some _ ht, encUInt2_some _ hl,
    encUInt4_some _ hv, ok_bind, pure_eq_ok, List.append_assoc]

/-- C1: for every validly constructed record of every action variant
(Output, Enqueue, VlanVid, VlanPCP, DLAddr, NWAddr, NWTos, TPPort,
VendorHeader), decoding the bytes produced by encoding the record yields
the same record together with a bytes-consumed count equal to the
variant's declared size. -/
theorem c1_encode_decode_roundtrip :
    (∀ r : ActionOutput, r.Valid →
      r.encode.bind ActionOutput.decode = Except.ok (r, ActionOutput.sizeBytes)) ∧
    (∀ r : ActionEnqueue, r.Valid →
      r.encode.bind ActionEnqueue.decode = Except.ok (r, ActionEnqueue.sizeBytes)) ∧
    (∀ r : ActionVlanVid, r.Valid →
      r.encode.bind ActionVlanVid.decode = Except.ok (r, ActionVlanVid.sizeBytes)) ∧
    (∀ r : ActionVlanPCP, r.Valid →
      r.encode.bind ActionVlanPCP.decode = Except.ok (r, ActionVlanPCP.sizeBytes)) ∧
    (∀ r : ActionDLAddr, r.Valid →
      r.encode.bind ActionDLAddr.decode = Except.ok (r, ActionDLAddr.sizeBytes)) ∧
    (∀ r : ActionNWAddr, r.Valid →
      r.encode.bind ActionNWAddr.decode = Except.ok (r, ActionNWAddr.sizeBytes)) ∧
    (∀ r : ActionNWTos, r.Valid →
      r.encode.bind ActionNWTos.decode = Except.ok (r, ActionNWTos.sizeBytes)) ∧
    (∀ r : ActionTPPort, r.Valid →
      r.encode.bind ActionTPPort.decode = Except.ok (r, ActionTPPort.sizeBytes)) ∧
    (∀ r : ActionVendorHeader, r.Valid →
      r.encode.bind ActionVendorHeader.decode =
        Except.ok (r, ActionVendorHeader.sizeBytes)) := by
  refine ⟨?_, ?_, ?_, ?_, ?_, ?_, ?_, ?_, ?_⟩
  · rintro r ⟨t, l, p, m, rfl, ht, hl, hp, hm⟩
    simp [outputEncodeEq t l p m ht hl hp hm, ok_bind2, ActionOutput.decode,
      ActionOutput.sizeBytes, decUInt2_append _ _ ht, decUInt2_append _ _ hl,
      decUInt2_append _ _ hp, decUInt2_exact _ hm, ok_bind, pure_eq_ok,
      bytesBE_length]
  · rintro r ⟨t, l, p, pd, q, rfl, ht, hl, hp, hpd, hq⟩
    simp [enqueueEncodeEq t l p pd q ht hl hp hpd hq, ok_bind2,
      ActionEnqueue.decode, ActionEnqueue.sizeBytes,
      decUInt2_append _ _ ht, decUInt2_append _ _ hl, decUInt2_append _ _ hp,
      decArr_append _ _ _ hpd, decUInt4_exact _ hq, ok_bind, pure_eq_ok,
      bytesBE_length, hpd]
  · rintro r ⟨t, l, v, pd, rfl, ht, hl, hv, hpd⟩
    simp [vlanVidEncodeEq t l v pd ht hl hv hpd, ok_bind2,
      ActionVlanVid.decode, ActionVlanVid.sizeBytes,
      decUInt2_append _ _ ht, decUInt2_append _ _ hl, decUInt2_append _ _ hv,
      decArr_exact _ _ hpd, ok_bind, pure_eq_ok, bytesBE_length, hpd]
  · rintro r ⟨t, l, v, pd, rfl, ht, hl, hv, hpd⟩
    simp [vlanPCPEncodeEq t l v pd ht hl hv hpd, ok_bind2,
      ActionVlanPCP.decode, ActionVlanPCP.sizeBytes,
      decUInt2_append _ _ ht, decUInt2_append _ _ hl, decUInt1_append _ _ hv,
      decArr_exact _ _ hpd, ok_bind, pure_eq_ok, bytesBE_length, hpd]
  · rintro r ⟨t, l, a, pd, rfl, ht, hl, ha, hpd⟩
    simp [dlAddrEncodeEq t l a pd ht hl ha hpd, ok_bind2,
      ActionDLAddr.decode, ActionDLAddr.sizeBytes, OFP_ETH_ALEN,
      decUInt2_append _ _ ht, decUInt2_append _ _ hl,
      decArr_append _ _ _ ha, decArr_exact _ _ hpd, ok_bind, pure_eq_ok,
      bytesBE_length, ha, hpd]
  · rintro r ⟨t, l, a, rfl, ht, hl, ha⟩
    simp [nwAddrEncodeEq t l a ht hl ha, ok_bind2, ActionNWAddr.decode,
      ActionNWAddr.sizeBytes, decUInt2_append _ _ ht,
      decUInt2_append _ _ hl, decUInt4_exact _ ha, ok_bind, pure_eq_ok,
      bytesBE_length]
  · rintro r ⟨t, l, v, pd, rfl, ht, hl, hv, hpd⟩
    simp [nwTosEncodeEq t l v pd ht hl hv hpd, ok_bind2,
      ActionNWTos.decode, ActionNWTos.sizeBytes,
      decUInt2_append _ _ ht, decUInt2_append _ _ hl, decUInt1_append _ _ hv,
      decArr_exact _ _ hpd, ok_bind, pure_eq_ok, bytesBE_length, hpd]
  · rintro r ⟨t, l, v, pd, rfl, ht, hl, hv, hpd⟩
    simp [tpPortEncodeEq t l v pd ht hl hv hpd, ok_bind2,
      ActionTPPort.decode, ActionTPPort.sizeBytes,
      decUInt2_append _ _ ht, decUInt2_append _ _ hl, decUInt2_append _ _ hv,
      decArr_exact _ _ hpd, ok_bind, pure_eq_ok, bytesBE_length, hpd]
  · rintro r ⟨t, l, v, rfl, ht, hl, hv⟩
    simp [vendorEncodeEq t l v ht hl hv, ok_bind2,
      ActionVendorHeader.decode, ActionVendorHeader.sizeBytes,
      decUInt2_append _ _ ht, decUInt2_append _ _ hl, decUInt4_exact _ hv,
      ok_bind, pure_eq_ok, bytesBE_length]

/-- C1 witness: the round-trip theorem applied at one concrete valid
record of each variant. -/
theorem c1_encode_decode_roundtrip_witness :
    (ActionOutput.encode ⟨some 0, some 8, some 5, some 0⟩).bind
        ActionOutput.decode =
      Except.ok (⟨some 0, some 8, some 5, some 0⟩, ActionOutput.sizeBytes) ∧
    (ActionEnqueue.encode
        ⟨some 11, some 16, some 2, some [0, 0, 0, 0, 0, 0], some 300⟩).bind
        ActionEnqueue.decode =
      Except.ok (⟨some 11, some 16, some 2, some [0, 0, 0, 0, 0, 0], some 300⟩,
        ActionEnqueue.sizeBytes) ∧
    (ActionVendorHeader.encode ⟨some 65535, some 8, some 4207849484⟩).bind
        ActionVendorHeader.decode =
      Except.ok (⟨some 65535, some 8, some 4207849484⟩,
        ActionVendorHeader.sizeBytes) :=
  ⟨c1_encode_decode_roundtrip.1 ⟨some 0, some 8, some 5, some 0⟩
      ⟨0, 8, 5, 0, rfl, by norm_num, by norm_num, by norm_num, by norm_num⟩,
   (c1_encode_decode_roundtrip.2.1 ⟨some 11, some 16, some 2,
        some [0, 0, 0, 0, 0, 0], some 300⟩
      ⟨11, 16, 2, [0, 0, 0, 0, 0, 0], 300, rfl, by norm_num, by norm_num,
        by norm_num, by norm_num, by norm_num⟩),
   (c1_encode_decode_roundtrip.2.2.2.2.2.2.2.2 ⟨some 65535, some 8,
        some 4207849484⟩
      ⟨65535, 8, 4207849484, rfl, by norm_num, by norm_num, by norm_num⟩)⟩

/-- C6: the Output record with discriminant 0, declared length 8, port 5
and max_length 0 encodes to exactly the eight bytes
00 00 00 08 00 05 00 00, and decoding those eight bytes returns that same
record with 8 bytes consumed. -/
theorem c6_concrete_output_scenario :
    ActionOutput.encode ⟨some 0, some 8, some 5, some 0⟩ =
      Except.ok [0, 0, 0, 8, 0, 5, 0, 0] ∧
    ActionOutput.decode [0, 0, 0, 8, 0, 5, 0, 0] =
      Except.ok (⟨some 0, some 8, some 5, some 0⟩, 8) :=
  ⟨rfl, rfl⟩

/-- C9: every action variant's constructor, applied at its all-`None`
defaults, succeeds and leaves every field (including the discriminant
and the declared length) unset. -/
theorem c9_default_construction_unset :
    ActionHeader.init none none none = ⟨none, none, none⟩ ∧
    ActionOutput.init none none none none = ⟨none, none, none, none⟩ ∧
    ActionEnqueue.init none none none none none =
      ⟨none, none, none, none, none⟩ ∧
    ActionVlanVid.init none none none none = ⟨none, none, none, none⟩ ∧
    ActionVlanPCP.init none none none none = ⟨none, none, none, none⟩ ∧
    ActionDLAddr.init none none none none = ⟨none, none, none, none⟩ ∧
    ActionNWAddr.init none none none = ⟨none, none, none⟩ ∧
    ActionNWTos.init none none none none = ⟨none, none, none, none⟩ ∧
    ActionTPPort.init none none none none = ⟨none, none, none, none⟩ ∧
    ActionVendorHeader.init none none none = ⟨none, none, none⟩ :=
  ⟨rfl, rfl, rfl, rfl, rfl, rfl, rfl, rfl, rfl, rfl⟩

/-- C10: for every variant and every discriminant value `t`, construction
with `ofpat_type = t` succeeds and stores `t` unchanged — no variant
validates its discriminant against its own layout. -/
theorem c10_no_discriminant_validation :
    ∀ t : Nat,
      (∀ (l : Option Nat) (pd : Option (List Nat)),
        (ActionHeader.init (some t) l pd).ofpat_type = some t) ∧
      (∀ l p m : Option Nat,
        (ActionOutput.init (some t) l p m).ofpat_type = some t) ∧
      (∀ (l p : Option Nat) (pd : Option (List Nat)) (q : Option Nat),
        (ActionEnqueue.init (some t) l p pd q).ofpat_type = some t) ∧
      (∀ (l v : Option Nat) (pd : Option (List Nat)),
        (ActionVlanVid.init (some t) l v pd).ofpat_type = some t) ∧
      (∀ (l v : Option Nat) (pd : Option (List Nat)),
        (ActionVlanPCP.init (some t) l v pd).ofpat_type = some t) ∧
      (∀ (l : Option Nat) (a pd : Option (List Nat)),
        (ActionDLAddr.init (some t) l a pd).ofpat_type = some t) ∧
      (∀ l a : Option Nat,
        (ActionNWAddr.init (some t) l a).ofpat_type = some t) ∧
      (∀ (l v : Option Nat) (pd : Option (List Nat)),
        (ActionNWTos.init (some t) l v pd).ofpat_type = some t) ∧
      (∀ (l v : Option Nat) (pd : Option (List Nat)),
        (ActionTPPort.init (some t) l v pd).ofpat_type = some t) ∧
      (∀ l v : Option Nat,
        (ActionVendorHeader.init (some t) l v).ofpat_type = some t) :=
  fun _ =>
    ⟨fun _ _ => rfl, fun _ _ _ => rfl, fun _ _ _ _ => rfl, fun _ _ _ => rfl,
     fun _ _ _ => rfl, fun _ _ _ => rfl, fun _ _ => rfl, fun _ _ _ => rfl,
     fun _ _ _ => rfl, fun _ _ => rfl⟩

/-- C2: the encoded size of every valid record is the variant's constant
size — 8 bytes for Output, VlanVid, VlanPCP, NWAddr, NWTos, TPPort and
16 bytes for Enqueue and DLAddr — and that constant is a multiple of 8;
the vendor wire size (fixed 8-byte prefix plus trailing payload) is a
multiple of 8 for every valid trailing-payload length. -/
theorem c2_size_invariant :
    (∀ (r : ActionOutput) (bs : List Nat), r.Valid → r.encode = Except.ok bs →
      bs.length = 8 ∧ bs.length % 8 = 0) ∧
    (∀ (r : ActionVlanVid) (bs : List Nat), r.Valid → r.encode = Except.ok bs →
      bs.length = 8 ∧ bs.length % 8 = 0) ∧
    (∀ (r : ActionVlanPCP) (bs : List Nat), r.Valid → r.encode = Except.ok bs →
      bs.length = 8 ∧ bs.length % 8 = 0) ∧
    (∀ (r : ActionNWAddr) (bs : List Nat), r.Valid → r.encode = Except.ok bs →
      bs.length = 8 ∧ bs.length % 8 = 0) ∧
    (∀ (r : ActionNWTos) (bs : List Nat), r.Valid → r.encode = Except.ok bs →
      bs.length = 8 ∧ bs.length % 8 = 0) ∧
    (∀ (r : ActionTPPort) (bs : List Nat), r.Valid → r.encode = Except.ok bs →
      bs.length = 8 ∧ bs.length % 8 = 0) ∧
    (∀ (r : ActionEnqueue) (bs : List Nat), r.Valid → r.encode = Except.ok bs →
      bs.length = 16 ∧ bs.length % 8 = 0) ∧
    (∀ (r : ActionDLAddr) (bs : List Nat), r.Valid → r.encode = Except.ok bs →
      bs.length = 16 ∧ bs.length % 8 = 0) ∧
    (∀ (r : ActionVendorHeader) (bs : List Nat), r.Valid →
      r.encode = Except.ok bs → bs.length = 8 ∧ bs.length % 8 = 0) ∧
    (∀ n : Nat, validVendorPayloadLen n → vendorWireSize n % 8 = 0) := by
  refine ⟨?_, ?_, ?_, ?_, ?_, ?_, ?_, ?_, ?_, ?_⟩
  · rintro r bs ⟨t, l, p, m, rfl, ht, hl, hp, hm⟩ henc
    rw [outputEncodeEq t l p m ht hl hp hm] at henc
    simp only [Except.ok.injEq] at henc
    subst henc
    simp [bytesBE_length]
  · rintro r bs ⟨t, l, v, pd, rfl, ht, hl, hv, hpd⟩ henc
    rw [vlanVidEncodeEq t l v pd ht hl hv hpd] at henc
    simp only [Except.ok.injEq] at henc
    subst henc
    simp [bytesBE_length, hpd]
  · rintro r bs ⟨t, l, v, pd, rfl, ht, hl, hv, hpd⟩ henc
    rw [vlanPCPEncodeEq t l v pd ht hl hv hpd] at henc
    simp only [Except.ok.injEq] at henc
    subst henc
    simp [bytesBE_length, hpd]
  · rintro r bs ⟨t, l, a, rfl, ht, hl, ha⟩ henc
    rw [nwAddrEncodeEq t l a ht hl ha] at henc
    simp only [Except.ok.injEq] at henc
    subst henc
    simp [bytesBE_length]
  · rintro r bs ⟨t, l, v, pd, rfl, ht, hl, hv, hpd⟩ henc
    rw [nwTosEncodeEq t l v pd ht hl hv hpd] at henc
    simp only [Except.ok.injEq] at henc
    subst henc
    simp [bytesBE_length, hpd]
  · rintro r bs ⟨t, l, v, pd, rfl, ht, hl, hv, hpd⟩ henc
    rw [tpPortEncodeEq t l v pd ht hl hv hpd] at henc
    simp only [Except.ok.injEq] at henc
    subst henc
    simp [bytesBE_length, hpd]
  · rintro r bs ⟨t, l, p, pd, q, rfl, ht, hl, hp, hpd, hq⟩ henc
    rw [enqueueEncodeEq t l p pd q ht hl hp hpd hq] at henc
    simp only [Except.ok.injEq] at henc
    subst henc
    simp [bytesBE_length, hpd]
  · rintro r bs ⟨t, l, a, pd, rfl, ht, hl, ha, hpd⟩ henc
    rw [dlAddrEncodeEq t l a pd ht hl ha hpd] at henc
    simp only [Except.ok.injEq] at henc
    subst henc
    simp [bytesBE_length, ha, hpd]
  · rintro r bs ⟨t, l, v, rfl, ht, hl, hv⟩ henc
    rw [vendorEncodeEq t l v ht hl hv] at henc
    simp only [Except.ok.injEq] at henc
    subst henc
    simp [bytesBE_length]
  · intro n h
    simp only [validVendorPayloadLen] at h
    simp [vendorWireSize, ActionVendorHeader.sizeBytes, Nat.add_mod, h]

/-- C2 witness: the size invariant applied at a concrete valid Output
record and at the concrete vendor payload length 8. -/
theorem c2_size_invariant_witness :
    (List.length [0, 0, 0, 8, 0, 5, 0, 0] = 8 ∧
      List.length [0, 0, 0, 8, 0, 5, 0, 0] % 8 = 0) ∧
    vendorWireSize 8 % 8 = 0 :=
  ⟨c2_size_invariant.1 ⟨some 0, some 8, some 5, some 0⟩ [0, 0, 0, 8, 0, 5, 0, 0]
      ⟨0, 8, 5, 0, rfl, by norm_num, by norm_num, by norm_num, by norm_num⟩ rfl,
   c2_size_invariant.2.2.2.2.2.2.2.2.2 8 (by norm_num [validVendorPayloadLen])⟩

/-- C5: encoding an N-byte unsigned-integer field with a value at or
above 2^(8N) fails with RangeError; in particular encoding an Output
record whose max_length is 70000 (with the other fields in range) fails
with RangeError. -/
theorem c5_range_error :
    (∀ w v : Nat, 256 ^ w ≤ v →
      encUInt w (some v) = Except.error CodecError.rangeError) ∧
    (∀ t l p : Nat, t < 65536 → l < 65536 → p < 65536 →
      ActionOutput.encode ⟨some t, some l, some p, some 70000⟩ =
        Except.error CodecError.rangeError) := by
  constructor
  · intro w v h
    simp [encUInt, Nat.not_lt.2 h]
  · intro t l p ht hl hp
    simp [ActionOutput.encode, encUInt, ht, hl, hp, ok_bind, error_bind,
      pure_eq_ok]

/-- C5 witness: the range-error theorem applied at width 2 with value
70000 and at the concrete Output record of the scenario. -/
theorem c5_range_error_witness :
    encUInt 2 (some 70000) = Except.error CodecError.rangeError ∧
    ActionOutput.encode ⟨some 0, some 8, some 0, some 70000⟩ =
      Except.error CodecError.rangeError :=
  ⟨c5_range_error.1 2 70000 (by norm_num),
   c5_range_error.2 0 8 0 (by norm_num) (by norm_num) (by norm_num)⟩

/-- C7: the action-type enumeration carries exactly the thirteen named
members with values OUTPUT=0 through ENQUEUE=11 and VENDOR=0xFFFF, and
its value set is exactly {0..11, 0xFFFF}. -/
theorem c7_enum_closed :
    (ActionType.value ActionType.OFPAT_OUTPUT = 0 ∧
     ActionType.value ActionType.OFPAT_SET_VLAN_VID = 1 ∧
     ActionType.value ActionType.OFPAT_SET_VLAN_PCP = 2 ∧
     ActionType.value ActionType.OFPAT_STRIP_VLAN = 3 ∧
     ActionType.value ActionType.OFPAT_SET_DL_SRC = 4 ∧
     ActionType.value ActionType.OFPAT_SET_DL_DST = 5 ∧
     ActionType.value ActionType.OFPAT_SET_NW_SRC = 6 ∧
     ActionType.value ActionType.OFPAT_SET_NW_DST = 7 ∧
     ActionType.value ActionType.OFPAT_SET_NW_TOS = 8 ∧
     ActionType.value ActionType.OFPAT_SET_TP_SRC = 9 ∧
     ActionType.value ActionType.OFPAT_SET_TP_DST = 10 ∧
     ActionType.value ActionType.OFPAT_ENQUEUE = 11 ∧
     ActionType.value ActionType.OFPAT_VENDOR = 65535) ∧
    (∀ v : Nat, (∃ a : ActionType, ActionType.value a = v) ↔
      v ∈ ([0, 1, 2, 3, 4, 5, 6, 7, 8, 9, 10, 11, 65535] : List Nat)) ∧
    actionTypeValues = [0, 1, 2, 3, 4, 5, 6, 7, 8, 9, 10, 11, 65535] := by
  refine ⟨⟨rfl, rfl, rfl, rfl, rfl, rfl, rfl, rfl, rfl, rfl, rfl, rfl, rfl⟩,
    ?_, rfl⟩
  intro v
  constructor
  · rintro ⟨a, rfl⟩
    cases a <;> simp [ActionType.value]
  · intro hv
    simp only [List.mem_cons, List.not_mem_nil, or_false] at hv
    rcases hv with rfl | rfl | rfl | rfl | rfl | rfl | rfl | rfl | rfl | rfl |
      rfl | rfl | rfl
    · exact ⟨ActionType.OFPAT_OUTPUT, rfl⟩
    · exact ⟨ActionType.OFPAT_SET_VLAN_VID, rfl⟩
    · exact ⟨ActionType.OFPAT_SET_VLAN_PCP, rfl⟩
    · exact ⟨ActionType.OFPAT_STRIP_VLAN, rfl⟩
    · exact ⟨ActionType.OFPAT_SET_DL_SRC, rfl⟩
    · exact ⟨ActionType.OFPAT_SET_DL_DST, rfl⟩
    · exact ⟨ActionType.OFPAT_SET_NW_SRC, rfl⟩
    · exact ⟨ActionType.OFPAT_SET_NW_DST, rfl⟩
    · exact ⟨ActionType.OFPAT_SET_NW_TOS, rfl⟩
    · exact ⟨ActionType.OFPAT_SET_TP_SRC, rfl⟩
    · exact ⟨ActionType.OFPAT_SET_TP_DST, rfl⟩
    · exact ⟨ActionType.OFPAT_ENQUEUE, rfl⟩
    · exact ⟨ActionType.OFPAT_VENDOR, rfl⟩

/-- C8 counterexample: padding is a caller-settable constructor argument
(`ActionVlanVid.__init__` stores `pad2` unchanged), and a record whose
pad bytes are `[7, 0]` encodes with a non-zero padding byte on the wire:
the claim that every encoded padding byte is zero and that padding is
not caller-settable fails at this concrete input. -/
theorem c8_padding_counterexample :
    (ActionVlanVid.init (some 1) (some 8) (some 100) (some [7, 0])).pad2 =
      some [7, 0] ∧
    ActionVlanVid.encode
        (ActionVlanVid.init (some 1) (some 8) (some 100) (some [7, 0])) =
      Except.ok [0, 1, 0, 8, 0, 100, 7, 0] ∧
    List.drop 6 ([0, 1, 0, 8, 0, 100, 7, 0] : List Nat) ≠
      List.replicate 2 0 :=
  ⟨rfl, rfl, by decide⟩

/-- C8 amended: padding fields are ordinary caller-settable constructor
fields encoded verbatim; for every record whose padding fields are
all-zero, every padding byte in the encoded output is zero (for each
variant that declares padding: Header, Enqueue, VlanVid, VlanPCP,
DLAddr, NWTos, TPPort). -/
theorem c8_padding_amended :
    (∀ pd : Option (List Nat),
      (ActionHeader.init none none pd).pad = pd ∧
      (ActionEnqueue.init none none none pd none).pad = pd ∧
      (ActionVlanVid.init none none none pd).pad2 = pd ∧
      (ActionVlanPCP.init none none none pd).pad = pd ∧
      (ActionDLAddr.init none none none pd).pad = pd ∧
      (ActionNWTos.init none none none pd).pad = pd ∧
      (ActionTPPort.init none none none pd).pad = pd) ∧
    (∀ (t l : Nat) (bs : List Nat), t < 65536 → l < 65536 →
      ActionHeader.encode ⟨some t, some l, some (List.replicate 4 0)⟩ =
        Except.ok bs →
      List.drop 4 bs = List.replicate 4 0) ∧
    (∀ (t l p q : Nat) (bs : List Nat), t < 65536 → l < 65536 → p < 65536 →
      q < 4294967296 →
      ActionEnqueue.encode
          ⟨some t, some l, some p, some (List.replicate 6 0), some q⟩ =
        Except.ok bs →
      List.take 6 (List.drop 6 bs) = List.replicate 6 0) ∧
    (∀ (t l v : Nat) (bs : List Nat), t < 65536 → l < 65536 → v < 65536 →
      ActionVlanVid.encode ⟨some t, some l, some v, some (List.replicate 2 0)⟩ =
        Except.ok bs →
      List.drop 6 bs = List.replicate 2 0) ∧
    (∀ (t l v : Nat) (bs : List Nat), t < 65536 → l < 65536 → v < 256 →
      ActionVlanPCP.encode ⟨some t, some l, some v, some (List.replicate 3 0)⟩ =
        Except.ok bs →
      List.drop 5 bs = List.replicate 3 0) ∧
    (∀ (t l : Nat) (a bs : List Nat), t < 65536 → l < 65536 →
      List.length a = 6 →
      ActionDLAddr.encode ⟨some t, some l, some a, some (List.replicate 6 0)⟩ =
        Except.ok bs →
      List.drop 10 bs = List.replicate 6 0) ∧
    (∀ (t l v : Nat) (bs : List Nat), t < 65536 → l < 65536 → v < 256 →
      ActionNWTos.encode ⟨some t, some l, some v, some (List.replicate 3 0)⟩ =
        Except.ok bs →
      List.drop 5 bs = List.replicate 3 0) ∧
    (∀ (t l v : Nat) (bs : List Nat), t < 65536 → l < 65536 → v < 65536 →
      ActionTPPort.encode ⟨some t, some l, some v, some (List.replicate 2 0)⟩ =
        Except.ok bs →
      List.drop 6 bs = List.replicate 2 0) := by
  refine ⟨fun pd => ⟨rfl, rfl, rfl, rfl, rfl, rfl, rfl⟩, ?_, ?_, ?_, ?_, ?_,
    ?_, ?_⟩
  · intro t l bs ht hl henc
    rw [headerEncodeEq t l _ ht hl (by simp)] at henc
    simp only [Except.ok.injEq] at henc
    subst henc
    rw [← List.append_assoc]
    exact List.drop_left' (by simp [bytesBE_length])
  · intro t l p q bs ht hl hp hq henc
    rw [enqueueEncodeEq t l p _ q ht hl hp (by simp) hq] at henc
    simp only [Except.ok.injEq] at henc
    subst henc
    rw [show bytesBE 2 t ++ (bytesBE 2 l ++ (bytesBE 2 p ++
        (List.replicate 6 0 ++ bytesBE 4 q))) =
      (bytesBE 2 t ++ (bytesBE 2 l ++ bytesBE 2 p)) ++
        (List.replicate 6 0 ++ bytesBE 4 q) by simp [List.append_assoc]]
    rw [List.drop_left' (by simp [bytesBE_length])]
    exact List.take_left' (by simp)
  · intro t l v bs ht hl hv henc
    rw [vlanVidEncodeEq t l v _ ht hl hv (by simp)] at henc
    simp only [Except.ok.injEq] at henc
    subst henc
    rw [show bytesBE 2 t ++ (bytesBE 2 l ++ (bytesBE 2 v ++
        List.replicate 2 0)) =
      (bytesBE 2 t ++ (bytesBE 2 l ++ bytesBE 2 v)) ++ List.replicate 2 0 by
        simp [List.append_assoc]]
    exact List.drop_left' (by simp [bytesBE_length])
  · intro t l v bs ht hl hv henc
    rw [vlanPCPEncodeEq t l v _ ht hl hv (by simp)] at henc
    simp only [Except.ok.injEq] at henc
    subst henc
    rw [show bytesBE 2 t ++ (bytesBE 2 l ++ (bytesBE 1 v ++
        List.replicate 3 0)) =
      (bytesBE 2 t ++ (bytesBE 2 l ++ bytesBE 1 v)) ++ List.replicate 3 0 by
        simp [List.append_assoc]]
    exact List.drop_left' (by simp [bytesBE_length])
  · intro t l a bs ht hl ha henc
    rw [dlAddrEncodeEq t l a _ ht hl ha (by simp)] at henc
    simp only [Except.ok.injEq] at henc
    subst henc
    rw [show bytesBE 2 t ++ (bytesBE 2 l ++ (a ++ List.replicate 6 0)) =
      (bytesBE 2 t ++ (bytesBE 2 l ++ a)) ++ List.replicate 6 0 by
        simp [List.append_assoc]]
    exact List.drop_left' (by simp [bytesBE_length, ha])
  · intro t l v bs ht hl hv henc
    rw [nwTosEncodeEq t l v _ ht hl hv (by simp)] at henc
    simp only [Except.ok.injEq] at henc
    subst henc
    rw [show bytesBE 2 t ++ (bytesBE 2 l ++ (bytesBE 1 v ++
        List.replicate 3 0)) =
      (bytesBE 2 t ++ (bytesBE 2 l ++ bytesBE 1 v)) ++ List.replicate 3 0 by
        simp [List.append_assoc]]
    exact List.drop_left' (by simp [bytesBE_length])
  · intro t l v bs ht hl hv henc
    rw [tpPortEncodeEq t l v _ ht hl hv (by simp)] at henc
    simp only [Except.ok.injEq] at henc
    subst henc
    rw [show bytesBE 2 t ++ (bytesBE 2 l ++ (bytesBE 2 v ++
        List.replicate 2 0)) =
      (bytesBE 2 t ++ (bytesBE 2 l ++ bytesBE 2 v)) ++ List.replicate 2 0 by
        simp [List.append_assoc]]
    exact List.drop_left' (by simp [bytesBE_length])

/-- C8 witness: the amended padding theorem applied at a concrete header
record with all-zero padding. -/
theorem c8_padding_amended_witness :
    List.drop 4 ([0, 3, 0, 8, 0, 0, 0, 0] : List Nat) = List.replicate 4 0 :=
  c8_padding_amended.2.1 3 8 [0, 3, 0, 8, 0, 0, 0, 0] (by norm_num)
    (by norm_num) rfl

theorem decodeAsOutput_declOK (buf : List Nat) (a : ActionRecord) (n : Nat)
    (h : decodeAsOutput buf = Except.ok (a, n)) : declaredLengthOK a := by
  unfold decodeAsOutput at h
  split at h
  · simp at h
  · split at h
    · rename_i hlen
      simp only [Except.ok.injEq, Prod.mk.injEq] at h
      obtain ⟨h1, _⟩ := h
      subst h1
      simpa [declaredLengthOK] using hlen
    · simp at h

theorem decodeAsVlanVid_declOK (buf : List Nat) (a : ActionRecord) (n : Nat)
    (h : decodeAsVlanVid buf = Except.ok (a, n)) : declaredLengthOK a := by
  unfold decodeAsVlanVid at h
  split at h
  · simp at h
  · split at h
    · rename_i hlen
      simp only [Except.ok.injEq, Prod.mk.injEq] at h
      obtain ⟨h1, _⟩ := h
      subst h1
      simpa [declaredLengthOK] using hlen
    · simp at h

theorem decodeAsVlanPCP_declOK (buf : List Nat) (a : ActionRecord) (n : Nat)
    (h : decodeAsVlanPCP buf = Except.ok (a, n)) : declaredLengthOK a := by
  unfold decodeAsVlanPCP at h
  split at h
  · simp at h
  · split at h
    · rename_i hlen
      simp only [Except.ok.injEq, Prod.mk.injEq] at h
      obtain ⟨h1, _⟩ := h
      subst h1
      simpa [declaredLengthOK] using hlen
    · simp at h

theorem decodeAsStripVlan_declOK (buf : List Nat) (a : ActionRecord) (n : Nat)
    (h : decodeAsStripVlan buf = Except.ok (a, n)) : declaredLengthOK a := by
  unfold decodeAsStripVlan at h
  split at h
  · simp at h
  · split at h
    · rename_i hlen
      simp only [Except.ok.injEq, Prod.mk.injEq] at h
      obtain ⟨h1, _⟩ := h
      subst h1
      simpa [declaredLengthOK] using hlen
    · simp at h

theorem decodeAsDLAddr_declOK (buf : List Nat) (a : ActionRecord) (n : Nat)
    (h : decodeAsDLAddr buf = Except.ok (a, n)) : declaredLengthOK a := by
  unfold decodeAsDLAddr at h
  split at h
  · simp at h
  · split at h
    · rename_i hlen
      simp only [Except.ok.injEq, Prod.mk.injEq] at h
      obtain ⟨h1, _⟩ := h
      subst h1
      simpa [declaredLengthOK] using hlen
    · simp at h

theorem decodeAsNWAddr_declOK (buf : List Nat) (a : ActionRecord) (n : Nat)
    (h : decodeAsNWAddr buf = Except.ok (a, n)) : declaredLengthOK a := by
  unfold decodeAsNWAddr at h
  split at h
  · simp at h
  · split at h
    · rename_i hlen
      simp only [Except.ok.injEq, Prod.mk.injEq] at h
      obtain ⟨h1, _⟩ := h
      subst h1
      simpa [declaredLengthOK] using hlen
    · simp at h

theorem decodeAsNWTos_declOK (buf : List Nat) (a : ActionRecord) (n : Nat)
    (h : decodeAsNWTos buf = Except.ok (a, n)) : declaredLengthOK a := by
  unfold decodeAsNWTos at h
  split at h
  · simp at h
  · split at h
    · rename_i hlen
      simp only [Except.ok.injEq, Prod.mk.injEq] at h
      obtain ⟨h1, _⟩ := h
      subst h1
      simpa [declaredLengthOK] using hlen
    · simp at h

theorem decodeAsTPPort_declOK (buf : List Nat) (a : ActionRecord) (n : Nat)
    (h : decodeAsTPPort buf = Except.ok (a, n)) : declaredLengthOK a := by
  unfold decodeAsTPPort at h
  split at h
  · simp at h
  · split at h
    · rename_i hlen
      simp only [Except.ok.injEq, Prod.mk.injEq] at h
      obtain ⟨h1, _⟩ := h
      subst h1
      simpa [declaredLengthOK] using hlen
    · simp at h

theorem decodeAsEnqueue_declOK (buf : List Nat) (a : ActionRecord) (n : Nat)
    (h : decodeAsEnqueue buf = Except.ok (a, n)) : declaredLengthOK a := by
  unfold decodeAsEnqueue at h
  split at h
  · simp at h
  · split at h
    · rename_i hlen
      simp only [Except.ok.injEq, Prod.mk.injEq] at h
      obtain ⟨h1, _⟩ := h
      subst h1
      simpa [declaredLengthOK] using hlen
    · simp at h

theorem decodeAsVendor_declOK (buf : List Nat) (a : ActionRecord) (n : Nat)
    (h : decodeAsVendor buf = Except.ok (a, n)) : declaredLengthOK a := by
  unfold decodeAsVendor at h
  split at h
  · simp at h
  · split at h
    · simp at h
    · rename_i r m l hr
      split at h
      · rename_i hcond
        split at h
        · simp only [Except.ok.injEq, Prod.mk.injEq] at h
          obtain ⟨h1, _⟩ := h
          subst h1
          exact ⟨l, hr, hcond.1, hcond.2⟩
        · simp at h
      · simp at h

/-- C3: every successfully dispatch-decoded action record carries a
declared length equal to its variant's true fixed encoded size —
except VendorHeader, whose declared length may exceed the fixed 8-byte
prefix by any multiple-of-8 length-validated trailing payload — and a
record encoded with a mismatched declared length is rejected with
LengthMismatchError on decode. -/
theorem c3_declared_length_validation :
    (∀ (buf : List Nat) (a : ActionRecord) (n : Nat),
      decodeAction buf = Except.ok (a, n) → declaredLengthOK a) ∧
    (∀ (l p m : Nat) (bs : List Nat), l < 65536 → p < 65536 → m < 65536 →
      l ≠ 8 →
      ActionOutput.encode ⟨some 0, some l, some p, some m⟩ = Except.ok bs →
      decodeAction bs = Except.error CodecError.lengthMismatchError) := by
  constructor
  · intro buf a n h
    unfold decodeAction at h
    split at h
    · simp at h
    · rename_i t s hteq
      by_cases e0 : t = 0
      · rw [if_pos e0] at h
        exact decodeAsOutput_declOK _ _ _ h
      · rw [if_neg e0] at h
        by_cases e1 : t = 1
        · rw [if_pos e1] at h
          exact decodeAsVlanVid_declOK _ _ _ h
        · rw [if_neg e1] at h
          by_cases e2 : t = 2
          · rw [if_pos e2] at h
            exact decodeAsVlanPCP_declOK _ _ _ h
          · rw [if_neg e2] at h
            by_cases e3 : t = 3
            · rw [if_pos e3] at h
              exact decodeAsStripVlan_declOK _ _ _ h
            · rw [if_neg e3] at h
              by_cases e4 : t = 4
              · rw [if_pos e4] at h
                exact decodeAsDLAddr_declOK _ _ _ h
              · rw [if_neg e4] at h
                by_cases e5 : t = 5
                · rw [if_pos e5] at h
                  exact decodeAsDLAddr_declOK _ _ _ h
                · rw [if_neg e5] at h
                  by_cases e6 : t = 6
                  · rw [if_pos e6] at h
                    exact decodeAsNWAddr_declOK _ _ _ h
                  · rw [if_neg e6] at h
                    by_cases e7 : t = 7
                    · rw [if_pos e7] at h
                      exact decodeAsNWAddr_declOK _ _ _ h
                    · rw [if_neg e7] at h
                      by_cases e8 : t = 8
                      · rw [if_pos e8] at h
                        exact decodeAsNWTos_declOK _ _ _ h
                      · rw [if_neg e8] at h
                        by_cases e9 : t = 9
                        · rw [if_pos e9] at h
                          exact decodeAsTPPort_declOK _ _ _ h
                        · rw [if_neg e9] at h
                          by_cases e10 : t = 10
                          · rw [if_pos e10] at h
                            exact decodeAsTPPort_declOK _ _ _ h
                          · rw [if_neg e10] at h
                            by_cases e11 : t = 11
                            · rw [if_pos e11] at h
                              exact decodeAsEnqueue_declOK _ _ _ h
                            · rw [if_neg e11] at h
                              by_cases e12 : t = 65535
                              · rw [if_pos e12] at h
                                exact decodeAsVendor_declOK _ _ _ h
                              · rw [if_neg e12] at h
                                exact absurd h (by simp)
  · intro l p m bs hl hp hm hne henc
    have h0 : (0 : Nat) < 65536 := by norm_num
    rw [outputEncodeEq 0 l p m h0 hl hp hm] at henc
    simp only [Except.ok.injEq] at henc
    subst henc
    have hd0 : decUInt 2 (bytesBE 2 0 ++ (bytesBE 2 l ++ (bytesBE 2 p ++
        bytesBE 2 m))) =
        Except.ok (0, bytesBE 2 l ++ (bytesBE 2 p ++ bytesBE 2 m)) :=
      decUInt2_append _ _ h0
    have hdec : ActionOutput.decode (bytesBE 2 0 ++ (bytesBE 2 l ++
        (bytesBE 2 p ++ bytesBE 2 m))) =
        Except.ok (⟨some 0, some l, some p, some m⟩, 8) := by
      simp [ActionOutput.decode, hd0, decUInt2_append _ _ hl,
        decUInt2_append _ _ hp, decUInt2_exact _ hm, ok_bind, pure_eq_ok,
        bytesBE_length]
    rw [decodeAction, hd0]
    simp only [decodeAsOutput, hdec, if_pos rfl]
    simp [hne]

/-- C3 witness: the declared-length theorem applied at the concrete
Output wire bytes, and the rejection applied at the concrete Output
record declaring length 9. -/
theorem c3_declared_length_validation_witness :
    declaredLengthOK
      (ActionRecord.output ⟨some 0, some 8, some 5, some 0⟩) ∧
    decodeAction [0, 0, 0, 9, 0, 0, 0, 0] =
      Except.error CodecError.lengthMismatchError :=
  ⟨c3_declared_length_validation.1 [0, 0, 0, 8, 0, 5, 0, 0]
      (ActionRecord.output ⟨some 0, some 8, some 5, some 0⟩) 8 rfl,
   c3_declared_length_validation.2 9 0 0 [0, 0, 0, 9, 0, 0, 0, 0]
      (by norm_num) (by norm_num) (by norm_num) (by norm_num) rfl⟩

/-- C4: decoding a buffer whose 16-bit discriminant lies outside the
closed set {0..11, 0xFFFF} of `ActionType` values fails with
UnknownTypeError — the dispatch-table lookup finds no variant decoder. -/
theorem c4_unknown_type_rejection :
    ∀ (buf : List Nat) (t : Nat) (rest : List Nat),
      decUInt 2 buf = Except.ok (t, rest) → t ∉ actionTypeValues →
      decodeAction buf = Except.error CodecError.unknownTypeError := by
  intro buf t rest h ht
  simp only [actionTypeValues, allActionTypes, ActionType.value, List.map_cons,
    List.map_nil, List.mem_cons, List.not_mem_nil, or_false, not_or] at ht
  obtain ⟨n0, n1, n2, n3, n4, n5, n6, n7, n8, n9, n10, n11, n12⟩ := ht
  rw [decodeAction, h]
  simp only [if_neg n0, if_neg n1, if_neg n2, if_neg n3, if_neg n4,
    if_neg n5, if_neg n6, if_neg n7, if_neg n8, if_neg n9, if_neg n10,
    if_neg n11, if_neg n12]

/-- C4 witness: the unknown-type rejection applied at a concrete buffer
with discriminant 12. -/
theorem c4_unknown_type_rejection_witness :
    decodeAction [0, 12, 0, 8, 0, 0, 0, 0] =
      Except.error CodecError.unknownTypeError :=
  c4_unknown_type_rejection [0, 12, 0, 8, 0, 0, 0, 0] 12 [0, 8, 0, 0, 0, 0]
    rfl (by decide)
